import Mathlib

/-!
Verification development for the RalphTemplate backend: the per-workspace
tabular ingestion and schema-introspection engine, together with the
file-upload validation pipeline and workspace path resolution that feed it.

The Python sources embedded here are `api/data.py` (upload_file,
_get_workspace_db_path, get_sources, delete_source) and `api/workspaces.py`
(create_workspace).  The module `services.duckdb_service` (ingest_file,
list_tables, drop_table) is referenced by the API layer and its tests but is
absent from the repository sources, so those three operations are modelled
from the specification text and marked as such in their doc comments.
-/

namespace RalphTemplate

/-! ## String helpers mirroring the Python standard library -/

/-- The last index of character `c` in `l`, as an `Int`, or `-1` when absent.
Mirrors `str.rfind` for a single character. -/
def rfindChar (c : Char) (l : List Char) : Int :=
  (List.range l.length).foldl
    (fun acc i => if l.get? i = some c then (i : Int) else acc) (-1)

/-- True when some index `i` with `lo < i < hi` holds a character other than
a dot.  Helper for the leading-dots rule of `os.path.splitext`. -/
def hasNonDotBetween (l : List Char) (lo hi : Int) : Bool :=
  (List.range l.length).any
    (fun i => decide (lo < (i : Int)) && decide ((i : Int) < hi)
      && l.get? i != some '.')

/-- The extension part of `os.path.splitext` for POSIX paths: the suffix
starting at the last dot of the basename, empty when the basename has no dot
or consists only of leading dots.  Mirrors `genericpath._splitext` with
separator `/` and no alternative separator. -/
def splitextExt (l : List Char) : List Char :=
  let sepIndex := rfindChar '/' l
  let dotIndex := rfindChar '.' l
  if dotIndex > sepIndex then
    if hasNonDotBetween l sepIndex dotIndex then
      l.drop dotIndex.toNat
    else []
  else []

/-- Embeds `_get_extension` from `api/data.py`: lowercase file extension of a
filename, via `os.path.splitext` then `str.lower`. -/
def get_extension (filename : String) : String :=
  String.mk ((splitextExt filename.toList).map Char.toLower)

/-- ASCII hexadecimal digit test. -/
def isHexDigit (c : Char) : Bool :=
  (decide ('0' ≤ c) && decide (c ≤ '9'))
    || (decide ('a' ≤ c) && decide (c ≤ 'f'))
    || (decide ('A' ≤ c) && decide (c ≤ 'F'))

/-- Character test for position `i` of a canonical 36-character UUID string:
a dash at positions 8, 13, 18, 23, a hexadecimal digit elsewhere. -/
def uuidCharOK (i : Nat) (c : Char) : Bool :=
  if i == 8 || i == 13 || i == 18 || i == 23 then c == '-' else isHexDigit c

/-- All characters of `l`, starting at position `i`, satisfy `uuidCharOK`. -/
def uuidCharsFrom : Nat → List Char → Bool
  | _, [] => true
  | i, c :: cs => uuidCharOK i c && uuidCharsFrom (i + 1) cs

/-- Canonical-form UUID acceptance: 8-4-4-4-12 hexadecimal groups separated
by dashes. -/
def isCanonicalUUID (s : String) : Bool :=
  s.toList.length == 36 && uuidCharsFrom 0 s.toList

/-- Models `uuid.UUID(workspace_id)` as used by the API layer: canonical
textual UUIDs parse to their lowercase form (UUID equality is by value, and
the canonical text of a UUID is lowercase); anything else raises
`ValueError`, modelled as `none`. -/
def parseUUID (s : String) : Option String :=
  if isCanonicalUUID s then some (String.mk (s.data.map Char.toLower)) else none

/-- Embeds `os.path.join` for two POSIX components: the second component
replaces everything when absolute; otherwise it is appended, inserting a
separator unless the first component is empty or already ends in one. -/
def pjoin (a b : String) : String :=
  if b.data.head? == some '/' then b
  else if a.data.isEmpty || a.data.getLast? == some '/' then a ++ b
  else a ++ "/" ++ b

/-! ## Filesystem state -/

/-- The slice of filesystem state the upload pipeline touches: the set of
existing directories and a map from file path to byte content (bytes as
`Nat`). -/
structure FS where
  dirs : List String
  files : List (String × List Nat)
deriving Repr, DecidableEq

/-- Embeds `os.makedirs(d, exist_ok=True)`: create the directory if missing, no
error and no change when already present. -/
def FS.makedirs (fs : FS) (d : String) : FS :=
  if d ∈ fs.dirs then fs else { fs with dirs := d :: fs.dirs }

/-- Embeds `open(path, "wb")` followed by a whole-payload write: the file at `path`
now holds exactly `content`. -/
def FS.writeFile (fs : FS) (path : String) (content : List Nat) : FS :=
  { fs with files := (path, content) :: fs.files.filter (fun p => p.1 != path) }

/-- Content of the file at `path`, when present. -/
def FS.readFile (fs : FS) (path : String) : Option (List Nat) :=
  (fs.files.find? (fun p => p.1 == path)).map Prod.snd

/-! ## Relational rows -/

/-- A row of the `workspaces` table (`models/workspace.py`): UUID ids are
embedded as their canonical lowercase strings. -/
structure Workspace where
  id : String
  name : String
  owner_id : String
  duckdb_path : String
deriving Repr, DecidableEq

/-- The workspace query of the API layer:
`db.query(Workspace).filter(Workspace.id == ws_uuid, Workspace.owner_id == user.id).first()`. -/
def findWorkspace (store : List Workspace) (ws_uuid user_id : String) :
    Option Workspace :=
  store.find? (fun w => w.id == ws_uuid && w.owner_id == user_id)

/-! ## Upload endpoint (`POST /api/data/upload`, `api/data.py`) -/

/-- Constants from `api/data.py`. -/
def ALLOWED_EXTENSIONS : List String := [".csv", ".json", ".parquet", ".xlsx", ".xls"]

/-- The cap `MAX_FILE_SIZE = 500 * 1024 * 1024`. -/
def MAX_FILE_SIZE : Nat := 500 * 1024 * 1024

/-- The file part of a multipart upload as the route sees it: Starlette
exposes `filename` and `content_type` as optional strings; `file.file.read()`
yields the payload bytes. -/
structure UploadFilePart where
  filename : Option String
  content_type : Option String
  content : List Nat
deriving Repr, DecidableEq

/-- Python falsiness of an optional string (`not file.filename`):
true for `None` and for the empty string. -/
def optStrFalsy : Option String → Bool
  | none => true
  | some s => s == ""

/-- Python `x or default` for an optional string: the default replaces
`None` and the empty string. -/
def optStrOr (x : Option String) (d : String) : String :=
  match x with
  | none => d
  | some s => if s == "" then d else s

/-- The response model `UploadResponse` of `api/data.py`. -/
structure UploadResponse where
  file_id : String
  filename : String
  size : Nat
  content_type : String
  path : String
deriving Repr, DecidableEq

/-- Outcome of a route handler: a successful value or an `HTTPException`
with status code and detail string. -/
inductive Outcome (α : Type)
  | ok (val : α)
  | httpError (status : Nat) (detail : String)
deriving Repr, DecidableEq

/-- True exactly on the success constructor of `Outcome`. -/
def Outcome.isOk {α : Type} : Outcome α → Bool
  | .ok _ => true
  | .httpError _ _ => false

/-- The detail string of the unsupported-extension rejection, with
`sorted(ALLOWED_EXTENSIONS)` joined by a comma. -/
def unsupportedDetail (ext : String) : String :=
  "Unsupported file type " ++ String.singleton (Char.ofNat 39) ++ ext
    ++ String.singleton (Char.ofNat 39) ++ ". Allowed: .csv, .json, .parquet, .xls, .xlsx"

/-- The detail string of the oversized-payload rejection. -/
def tooLargeDetail : String :=
  "File too large. Maximum size is " ++ toString (MAX_FILE_SIZE / (1024 * 1024)) ++ " MB"

/-- Embeds `upload_file` from `api/data.py` as a state transformer on the
filesystem.  `root` stands for the module constant `DUCKDB_PATH`, `user_id`
for `str(user.id)` of the authenticated user, and `fresh_id` for the value
of `str(uuid.uuid4())` drawn inside the handler.  Returns the HTTP outcome
and the filesystem after the call. -/
def upload_file (root : String) (store : List Workspace) (user_id : String)
    (workspace_id : String) (file : UploadFilePart) (fresh_id : String)
    (fs : FS) : Outcome UploadResponse × FS :=
  match parseUUID workspace_id with
  | none => (.httpError 404 "Workspace not found", fs)
  | some ws_uuid =>
    match findWorkspace store ws_uuid user_id with
    | none => (.httpError 404 "Workspace not found", fs)
    | some workspace =>
      if optStrFalsy file.filename then
        (.httpError 400 "Filename is required", fs)
      else
        let fname := file.filename.getD ""
        let ext := get_extension fname
        if ext ∉ ALLOWED_EXTENSIONS then
          (.httpError 400 (unsupportedDetail ext), fs)
        else
          let content := file.content
          if content.length > MAX_FILE_SIZE then
            (.httpError 400 tooLargeDetail, fs)
          else if content.length == 0 then
            (.httpError 400 "File is empty", fs)
          else
            let upload_dir :=
              pjoin (pjoin (pjoin root user_id) workspace.id) "uploads"
            let fs1 := fs.makedirs upload_dir
            let safe_filename := fresh_id ++ ext
            let file_path := pjoin upload_dir safe_filename
            let fs2 := fs1.writeFile file_path content
            (.ok { file_id := fresh_id
                   filename := fname
                   size := content.length
                   content_type := optStrOr file.content_type "application/octet-stream"
                   path := file_path }, fs2)

/-! ## Workspace creation (`POST /api/workspaces/`, `api/workspaces.py`) -/

/-- ASCII whitespace, the characters `str.strip` removes in the embedded
call sites. -/
def isSpaceChar (c : Char) : Bool :=
  c == ' ' || c == '\t' || c == '\n' || c == '\r' || c == '\x0b' || c == '\x0c'

/-- Python `str.strip()`: drop whitespace from both ends. -/
def pyStrip (l : List Char) : List Char :=
  ((l.dropWhile isSpaceChar).reverse.dropWhile isSpaceChar).reverse

/-- Python `body.name.strip()` as a string operation. -/
def stripName (name : String) : String :=
  String.mk (pyStrip name.data)

/-- The name normalisation inside `create_workspace`: strip the name, then
lowercase it, then replace each space by an underscore (ASCII lowercasing;
the embedded call sites use ASCII names). -/
def slugify (name : String) : String :=
  String.mk (((pyStrip name.data).map Char.toLower).map
    (fun c => if c == ' ' then '_' else c))

/-- The `duckdb_path` assigned by `create_workspace`:
the f-string `"{DUCKDB_PATH}/{user.id}/{slug}.db"`. -/
def workspacePath (root user_id slug : String) : String :=
  root ++ "/" ++ user_id ++ "/" ++ slug ++ ".db"

/-- Embeds `create_workspace` from `api/workspaces.py`.  `fresh_ws_id` stands for
the UUID primary key the ORM generates for the new row.  Rejects a name that
is empty after stripping; otherwise builds and persists the row. -/
def create_workspace (root : String) (user_id : String) (name : String)
    (fresh_ws_id : String) : Outcome Workspace :=
  if (pyStrip name.data).isEmpty then
    .httpError 400 "Workspace name cannot be empty"
  else
    .ok { id := fresh_ws_id
          name := stripName name
          owner_id := user_id
          duckdb_path := workspacePath root user_id (slugify name) }

/-! ## The analytical store (`services.duckdb_service`)

The module `services/duckdb_service.py` is referenced by `api/data.py` and by
the test suite but is not among the repository sources; the three operations
below are therefore modelled from the specification text (spec sections 4.2,
4.3, 4.4 and 6). -/

/-- Column metadata as reported by the introspector and shaped by the
`ColumnInfo` response model: column name, portable logical type, native
store type. -/
structure ColumnMeta where
  name : String
  type : String
  duckdb_type : String
deriving Repr, DecidableEq

/-- A table inside a workspace database: inferred column list and exact row
count, keyed by name in `DuckDB.tables`. -/
structure TableData where
  columns : List ColumnMeta
  row_count : Nat
deriving Repr, DecidableEq

/-- A valid analytical database: its user tables as an association list from
table name to table data. -/
structure DuckDB where
  tables : List (String × TableData)
deriving Repr, DecidableEq

/-- A file sitting at a workspace database path: either a valid analytical
database or bytes the store cannot open (opening raises a
`ValueError`-equivalent). -/
inductive DuckFile
  | db (d : DuckDB)
  | invalid
deriving Repr, DecidableEq

/-- The store-side world: a map from filesystem path to the file found
there; a path absent from the map has no file (`os.path.isfile` is false). -/
abbrev DuckWorld := List (String × DuckFile)

/-- Modelled from the spec: a format-specific loader reads the entire source
and infers the schema, so a source file is abstracted by the column list and
row count its loader produces. -/
structure SourceFile where
  columns : List ColumnMeta
  row_count : Nat
deriving Repr, DecidableEq

/-- Modelled from the spec: `ingest_file(database_path, source_path,
table_name)` of the missing `services.duckdb_service`.  Opens (creating if
absent) the database and loads the whole source into the table named
`table_name`, replacing any existing table of that name in full. -/
def ingest_file (d : DuckDB) (source : SourceFile) (table_name : String) :
    DuckDB :=
  { tables := d.tables.filter (fun t => t.1 != table_name)
      ++ [(table_name, { columns := source.columns, row_count := source.row_count })] }

/-- The descriptor `list_tables` reports per table, matching the
`DataSourceResponse` model of `api/data.py`. -/
structure DataSource where
  table_name : String
  columns : List ColumnMeta
  row_count : Nat
deriving Repr, DecidableEq

/-- Codepoint-lexicographic comparison of character lists: the ascending
name order of the introspector (string comparison by code point). -/
def lexLE : List Char → List Char → Bool
  | [], _ => true
  | _ :: _, [] => false
  | a :: as, b :: bs =>
    if a.toNat < b.toNat then true
    else if b.toNat < a.toNat then false
    else lexLE as bs

/-- Ordering of descriptors by table name, used by the introspector. -/
def dsLE (a b : DataSource) : Prop :=
  lexLE a.table_name.data b.table_name.data = true

instance : DecidableRel dsLE := fun a b =>
  inferInstanceAs (Decidable (lexLE a.table_name.data b.table_name.data = true))

/-- Modelled from the spec: `list_tables(database_path)` of the missing
`services.duckdb_service`.  On a file that is not a valid database it fails
with a `ValueError`-equivalent; on a valid database it returns one
descriptor per user table, ordered by table name ascending. -/
def list_tables (file : DuckFile) : Except String (List DataSource) :=
  match file with
  | .invalid => .error "file is not a valid database"
  | .db d =>
    .ok (List.insertionSort dsLE
      (d.tables.map (fun t =>
        { table_name := t.1, columns := t.2.columns, row_count := t.2.row_count })))

/-- Modelled from the spec: `drop_table(database_path, table_name)` of the
missing `services.duckdb_service`.  Fails with a `ValueError`-equivalent when
the file cannot be opened as a database or the name is not valid for the
store (the store name syntax is unspecified, so validity is a parameter);
otherwise returns whether a table was removed, together with the resulting
database file. -/
def drop_table (validName : String → Bool) (file : DuckFile)
    (table_name : String) : Except String (Bool × DuckFile) :=
  match file with
  | .invalid => .error "unable to open database file"
  | .db d =>
    if !validName table_name then .error "invalid table name"
    else
      .ok (d.tables.any (fun t => t.1 == table_name),
        .db { tables := d.tables.filter (fun t => t.1 != table_name) })

/-! ## Data source endpoints (`api/data.py`) -/

/-- Embeds `_get_workspace_db_path` from `api/data.py`: validate the workspace id
and ownership, return the stored `duckdb_path` or a 404. -/
def get_workspace_db_path (store : List Workspace) (user_id : String)
    (workspace_id : String) : Outcome String :=
  match parseUUID workspace_id with
  | none => .httpError 404 "Workspace not found"
  | some ws_uuid =>
    match findWorkspace store ws_uuid user_id with
    | none => .httpError 404 "Workspace not found"
    | some workspace => .ok workspace.duckdb_path

/-- Embeds `get_sources` from `api/data.py` (`GET /api/data/sources`): resolve the
workspace path; an absent database file yields the empty list; a
`ValueError` from `list_tables` is caught and yields the empty list. -/
def get_sources (store : List Workspace) (user_id : String)
    (workspace_id : String) (world : DuckWorld) :
    Outcome (List DataSource) :=
  match get_workspace_db_path store user_id workspace_id with
  | .httpError s d => .httpError s d
  | .ok db_path =>
    match world.find? (fun p => p.1 == db_path) with
    | none => .ok []
    | some (_, file) =>
      match list_tables file with
      | .ok l => .ok l
      | .error _ => .ok []

/-- The body-less outcome of `delete_source`: HTTP 204. -/
inductive DeleteOutcome
  | noContent
  | httpError (status : Nat) (detail : String)
deriving Repr, DecidableEq

/-- Embeds `delete_source` from `api/data.py` (`DELETE /api/data/sources/{name}`):
resolve the workspace path; 404 when the database file is absent; a
`ValueError` from `drop_table` becomes a 400; a false return becomes a 404;
a true return gives 204 with the table removed from the file. -/
def delete_source (validName : String → Bool) (store : List Workspace)
    (user_id : String) (table_name : String) (workspace_id : String)
    (world : DuckWorld) : DeleteOutcome × DuckWorld :=
  match get_workspace_db_path store user_id workspace_id with
  | .httpError s d => (.httpError s d, world)
  | .ok db_path =>
    match world.find? (fun p => p.1 == db_path) with
    | none => (.httpError 404 "Table not found", world)
    | some (_, file) =>
      match drop_table validName file table_name with
      | .error e => (.httpError 400 e, world)
      | .ok (dropped, file2) =>
        let world2 := world.map (fun p => if p.1 == db_path then (p.1, file2) else p)
        if dropped then (.noContent, world2)
        else (.httpError 404 "Table not found", world2)

/-! ## Concrete fixtures for witnesses and counterexamples -/

/-- A canonical workspace UUID fixture. -/
def wsId1 : String := "00000000-0000-0000-0000-000000000001"

/-- A second workspace UUID fixture. -/
def wsId2 : String := "00000000-0000-0000-0000-000000000002"

/-- A canonical owner UUID fixture. -/
def owner1 : String := "00000000-0000-0000-0000-0000000000aa"

/-- A workspace database path fixture. -/
def dbPath1 : String :=
  "/data/workspaces/00000000-0000-0000-0000-0000000000aa/main.db"

/-- A workspace row fixture owned by `owner1`. -/
def ws1 : Workspace :=
  { id := wsId1, name := "Main", owner_id := owner1, duckdb_path := dbPath1 }

/-- A one-row workspace store fixture. -/
def store1 : List Workspace := [ws1]

/-- The empty filesystem fixture. -/
def fs0 : FS := { dirs := [], files := [] }

/-- A table-content fixture. -/
def tdata1 : TableData :=
  { columns := [{ name := "id", type := "integer", duckdb_type := "BIGINT" }]
    row_count := 2 }

/-! ## Helper lemmas -/

/-- The comparator `lexLE` is total. -/
theorem lexLE_total : ∀ a b, lexLE a b = true ∨ lexLE b a = true
  | [], _ => Or.inl rfl
  | _ :: _, [] => Or.inr rfl
  | a :: as, b :: bs => by
    rcases Nat.lt_trichotomy a.toNat b.toNat with h | h | h
    · left; simp [lexLE, h]
    · rcases lexLE_total as bs with ih | ih
      · left; simp [lexLE, h, ih]
      · right; simp [lexLE, h.symm, ih]
    · right; simp [lexLE, h]

/-- The comparator `lexLE` is transitive. -/
theorem lexLE_trans : ∀ a b c, lexLE a b = true → lexLE b c = true →
    lexLE a c = true
  | [], _, _ => fun _ _ => rfl
  | _ :: _, [], _ => by simp [lexLE]
  | _ :: _, _ :: _, [] => by intro _ h2; simp [lexLE] at h2
  | a :: as, b :: bs, c :: cs => by
    intro h1 h2
    simp only [lexLE] at h1 h2 ⊢
    split at h1
    next hab =>
      split at h2
      next hbc => simp [Nat.lt_trans hab hbc]
      next hbc =>
        split at h2
        next hcb => simp at h2
        next hcb =>
          have hac : a.toNat < c.toNat := by omega
          simp [hac]
    next hab =>
      split at h1
      next hba => simp at h1
      next hba =>
        split at h2
        next hbc =>
          have hac : a.toNat < c.toNat := by omega
          simp [hac]
        next hbc =>
          split at h2
          next hcb => simp at h2
          next hcb =>
            have h3 : ¬ a.toNat < c.toNat := by omega
            have h4 : ¬ c.toNat < a.toNat := by omega
            simp only [if_neg h3, if_neg h4]
            exact lexLE_trans as bs cs h1 h2

/-- Looking up the ingested name after the replace pattern of `ingest_file`
finds exactly the newly loaded table. -/
theorem lookup_replace (name : String) (T : TableData)
    (l : List (String × TableData)) :
    List.lookup name (l.filter (fun t => t.1 != name) ++ [(name, T)])
      = some T := by
  induction l with
  | nil => simp [List.lookup]
  | cons hd tl ih =>
    rcases hd with ⟨k, v⟩
    by_cases h : k = name
    · simpa [h] using ih
    · have hb : (k != name) = true := by simpa using h
      have hb2 : (name == k) = false := by simpa using (Ne.symm h)
      simp [List.filter_cons, hb, List.lookup, hb2, ih]

/-- Cancellation of the slug component of a workspace database path. -/
theorem workspacePath_slug_inj (root uid : String) {s1 s2 : String}
    (h : workspacePath root uid s1 = workspacePath root uid s2) : s1 = s2 := by
  have hd := congrArg String.data h
  simp only [workspacePath, String.data_append] at hd
  exact String.ext (List.append_cancel_left (List.append_cancel_right hd))

/-- Two slash-separated decompositions with slash-free heads agree. -/
theorem seg_inj (a : List Char) : ∀ (b x y : List Char), '/' ∉ a → '/' ∉ b →
    a ++ '/' :: x = b ++ '/' :: y → a = b ∧ x = y := by
  induction a with
  | nil =>
    intro b x y _ hb h
    cases b with
    | nil => simpa using h
    | cons c bs =>
      simp only [List.nil_append, List.cons_append, List.cons.injEq] at h
      exact absurd (h.1 ▸ List.mem_cons_self c bs) hb
  | cons c as ih =>
    intro b x y ha hb h
    cases b with
    | nil =>
      simp only [List.cons_append, List.nil_append, List.cons.injEq] at h
      simp [h.1] at ha
    | cons cb bs =>
      simp only [List.cons_append, List.cons.injEq] at h
      obtain ⟨hc, htail⟩ := h
      have ha2 : '/' ∉ as := fun m => ha (List.mem_cons_of_mem _ m)
      have hb2 : '/' ∉ bs := fun m => hb (List.mem_cons_of_mem _ m)
      obtain ⟨he, hxy⟩ := ih bs x y ha2 hb2 htail
      exact ⟨by rw [hc, he], hxy⟩

/-- Cancellation of the owner component of a workspace database path, for
slash-free owner identifiers. -/
theorem workspacePath_owner_inj (root : String) {u1 u2 s1 s2 : String}
    (hu1 : '/' ∉ u1.data) (hu2 : '/' ∉ u2.data)
    (h : workspacePath root u1 s1 = workspacePath root u2 s2) : u1 = u2 := by
  have hd := congrArg String.data h
  simp only [workspacePath, String.data_append, List.append_assoc,
    show ("/" : String).data = ['/'] from rfl, List.singleton_append] at hd
  have hd2 := List.append_cancel_left hd
  injection hd2 with hd3 hd4
  exact String.ext (seg_inj u1.data u2.data _ _ hu1 hu2 hd4).1

/-! ## Claims -/

/-- C8: ingestion is a full replace and therefore idempotent for a fixed
source: ingesting the same source into the same table name twice leaves the
database state exactly as after a single ingestion, and the table then holds
exactly the column and row content loaded from the source. -/
theorem C8_ingest_full_replace_idempotent (d : DuckDB) (src : SourceFile)
    (name : String) :
    ingest_file (ingest_file d src name) src name = ingest_file d src name
    ∧ List.lookup name (ingest_file d src name).tables
        = some { columns := src.columns, row_count := src.row_count } := by
  refine ⟨?_, lookup_replace name _ d.tables⟩
  simp [ingest_file, List.filter_append, List.filter_filter]

/-- C4 counterexample: two distinct workspace rows of the same owner whose
display names normalise identically receive the identical `duckdb_path`, so
the path is not unique per (owner, workspace) as claimed. -/
theorem C4_counterexample :
    create_workspace "/data/workspaces" owner1 "My Data" wsId1
        = .ok { id := wsId1, name := "My Data", owner_id := owner1,
                duckdb_path :=
                  "/data/workspaces/00000000-0000-0000-0000-0000000000aa/my_data.db" }
    ∧ create_workspace "/data/workspaces" owner1 "my data" wsId2
        = .ok { id := wsId2, name := "my data", owner_id := owner1,
                duckdb_path :=
                  "/data/workspaces/00000000-0000-0000-0000-0000000000aa/my_data.db" }
    ∧ wsId1 ≠ wsId2 := by
  refine ⟨by decide, by decide, by decide⟩

/-- C4 amended: every created workspace row carries a `duckdb_path` of the
form root/owner_id/slug.db where slug is the trimmed, lowercased,
space-to-underscore display name; two rows created for different owners
(with slash-free owner ids) or for names with different slugs have distinct
paths.  Uniqueness fails only for same-owner rows whose names normalise to
the same slug. -/
theorem C4_amended_path_form_and_uniqueness (root u1 u2 n1 n2 i1 i2 : String)
    (w1 w2 : Workspace)
    (h1 : create_workspace root u1 n1 i1 = .ok w1)
    (h2 : create_workspace root u2 n2 i2 = .ok w2)
    (hu1 : '/' ∉ u1.data) (hu2 : '/' ∉ u2.data)
    (hdiff : u1 ≠ u2 ∨ slugify n1 ≠ slugify n2) :
    w1.duckdb_path = workspacePath root u1 (slugify n1)
    ∧ w2.duckdb_path = workspacePath root u2 (slugify n2)
    ∧ w1.duckdb_path ≠ w2.duckdb_path := by
  unfold create_workspace at h1 h2
  split at h1
  · exact absurd h1 (by simp)
  split at h2
  · exact absurd h2 (by simp)
  injection h1 with h1
  injection h2 with h2
  subst h1; subst h2
  refine ⟨rfl, rfl, ?_⟩
  intro heq
  simp only at heq
  by_cases hu : u1 = u2
  · subst hu
    rcases hdiff with hd | hd
    · exact hd rfl
    · exact hd (workspacePath_slug_inj root u1 heq)
  · exact hu (workspacePath_owner_inj root hu1 hu2 heq)

/-- Witness for the amended C4: two same-owner workspaces named Data and
Other get the stated path forms and distinct paths. -/
theorem C4_amended_witness :
    create_workspace "/data/workspaces" owner1 "Data" wsId1
        = .ok { id := wsId1, name := "Data", owner_id := owner1,
                duckdb_path := workspacePath "/data/workspaces" owner1 (slugify "Data") }
    ∧ ("/data/workspaces/00000000-0000-0000-0000-0000000000aa/data.db"
        ≠ "/data/workspaces/00000000-0000-0000-0000-0000000000aa/other.db") := by
  have h := C4_amended_path_form_and_uniqueness "/data/workspaces" owner1 owner1
    "Data" "Other" wsId1 wsId2
    { id := wsId1, name := "Data", owner_id := owner1,
      duckdb_path := workspacePath "/data/workspaces" owner1 (slugify "Data") }
    { id := wsId2, name := "Other", owner_id := owner1,
      duckdb_path := workspacePath "/data/workspaces" owner1 (slugify "Other") }
    (by decide) (by decide) (by decide) (by decide) (Or.inr (by decide))
  refine ⟨by decide, ?_⟩
  have h3 := h.2.2
  simp only at h3
  exact h3

/-- C5: for a workspace that exists and is owned by the caller but whose
analytical database file does not exist on disk, the listing endpoint
returns the empty sequence with a success status rather than an error. -/
theorem C5_absent_db_file_empty_list (store : List Workspace)
    (user_id workspace_id : String) (world : DuckWorld) (u : String)
    (w : Workspace)
    (hu : parseUUID workspace_id = some u)
    (hw : findWorkspace store u user_id = some w)
    (habs : world.find? (fun p => p.1 == w.duckdb_path) = none) :
    get_sources store user_id workspace_id world = .ok [] := by
  simp [get_sources, get_workspace_db_path, hu, hw, habs]

/-- Witness for C5: an owned workspace with no database file on disk lists
as empty. -/
theorem C5_witness : get_sources store1 owner1 wsId1 [] = .ok [] :=
  C5_absent_db_file_empty_list store1 owner1 wsId1 [] wsId1 ws1
    (by decide) (by decide) rfl

/-- C10: when the workspace database file exists on disk but `list_tables`
fails with a `ValueError`-equivalent on it, `get_sources` swallows the
error and returns the empty list with a success status. -/
theorem C10_unreadable_db_empty_list (store : List Workspace)
    (user_id workspace_id : String) (world : DuckWorld) (u q : String)
    (w : Workspace) (file : DuckFile) (e : String)
    (hu : parseUUID workspace_id = some u)
    (hw : findWorkspace store u user_id = some w)
    (hfile : world.find? (fun p => p.1 == w.duckdb_path) = some (q, file))
    (herr : list_tables file = .error e) :
    get_sources store user_id workspace_id world = .ok [] := by
  simp [get_sources, get_workspace_db_path, hu, hw, hfile, herr]

/-- Witness for C10: a file at the workspace path that is not a valid
database still lists as empty with success. -/
theorem C10_witness :
    get_sources store1 owner1 wsId1 [(dbPath1, .invalid)] = .ok [] :=
  C10_unreadable_db_empty_list store1 owner1 wsId1 [(dbPath1, .invalid)]
    wsId1 dbPath1 ws1 .invalid "file is not a valid database"
    (by decide) (by decide) rfl rfl

/-- C6: for a table name the store accepts, `drop_table` on a valid database
never fails and returns true exactly when the named table was present (and
so was removed); correspondingly the delete endpoint answers 404 when the
database file is absent, 204 when the drop returns true, and 404 when it
returns false. -/
theorem C6_drop_table_contract (validName : String → Bool)
    (store : List Workspace) (user_id workspace_id name : String)
    (world : DuckWorld) (u q : String) (w : Workspace) (d : DuckDB)
    (hv : validName name = true)
    (hu : parseUUID workspace_id = some u)
    (hw : findWorkspace store u user_id = some w) :
    (drop_table validName (.db d) name
        = .ok (d.tables.any (fun t => t.1 == name),
               .db { tables := d.tables.filter (fun t => t.1 != name) })
      ∧ (d.tables.any (fun t => t.1 == name) = true
          ↔ name ∈ d.tables.map Prod.fst))
    ∧ (world.find? (fun p => p.1 == w.duckdb_path) = none →
        (delete_source validName store user_id name workspace_id world).1
          = .httpError 404 "Table not found")
    ∧ (world.find? (fun p => p.1 == w.duckdb_path) = some (q, .db d) →
        (delete_source validName store user_id name workspace_id world).1
          = if d.tables.any (fun t => t.1 == name) then .noContent
            else .httpError 404 "Table not found") := by
  refine ⟨⟨?_, ?_⟩, ?_, ?_⟩
  · simp [drop_table, hv]
  · simp only [List.any_eq_true, List.mem_map, beq_iff_eq]
  · intro habs
    simp [delete_source, get_workspace_db_path, hu, hw, habs]
  · intro hfile
    simp only [delete_source, get_workspace_db_path, hu, hw, hfile,
      drop_table, hv, Bool.not_eq_true]
    by_cases hany : d.tables.any (fun t => t.1 == name) = true
    · simp [hany]
    · simp [hany]

/-- Witness for C6: on a database holding exactly the table sales, dropping
the absent table nope returns false without raising while the endpoint
answers 404, and deleting sales answers 204. -/
theorem C6_witness :
    drop_table (fun _ => true) (.db { tables := [("sales", tdata1)] }) "nope"
      = .ok (false, .db { tables := [("sales", tdata1)] })
    ∧ (delete_source (fun _ => true) store1 owner1 "sales" wsId1
        [(dbPath1, .db { tables := [("sales", tdata1)] })]).1 = .noContent
    ∧ (delete_source (fun _ => true) store1 owner1 "nope" wsId1
        [(dbPath1, .db { tables := [("sales", tdata1)] })]).1
        = .httpError 404 "Table not found" := by
  have hn := C6_drop_table_contract (fun _ => true) store1 owner1 wsId1 "nope"
    [(dbPath1, .db { tables := [("sales", tdata1)] })] wsId1 dbPath1 ws1
    { tables := [("sales", tdata1)] } rfl (by decide) (by decide)
  have hs := C6_drop_table_contract (fun _ => true) store1 owner1 wsId1 "sales"
    [(dbPath1, .db { tables := [("sales", tdata1)] })] wsId1 dbPath1 ws1
    { tables := [("sales", tdata1)] } rfl (by decide) (by decide)
  refine ⟨?_, ?_, ?_⟩
  · have hdrop := hn.1.1
    rw [show ({ tables := [("sales", tdata1)] } : DuckDB).tables.any
          (fun t => t.1 == "nope") = false from by decide,
        show ({ tables := [("sales", tdata1)] } : DuckDB).tables.filter
          (fun t => t.1 != "nope") = [("sales", tdata1)] from by decide] at hdrop
    exact hdrop
  · have h204 := hs.2.2 rfl
    rw [show ({ tables := [("sales", tdata1)] } : DuckDB).tables.any
          (fun t => t.1 == "sales") = true from by decide] at h204
    simpa using h204
  · have h404 := hn.2.2 rfl
    rw [show ({ tables := [("sales", tdata1)] } : DuckDB).tables.any
          (fun t => t.1 == "nope") = false from by decide] at h404
    simpa using h404

/-- C7: `list_tables` reports descriptors ordered by table name ascending;
in particular a database holding exactly the tables zebra and alpha, stored
in either order, lists their names as alpha then zebra. -/
theorem C7_list_tables_ascending (d : DuckDB) (tz ta : TableData)
    (h : d.tables = [("zebra", tz), ("alpha", ta)]
       ∨ d.tables = [("alpha", ta), ("zebra", tz)]) :
    (∀ d2 : DuckDB, ∃ l, list_tables (.db d2) = .ok l ∧ l.Sorted dsLE)
    ∧ Except.map (List.map DataSource.table_name) (list_tables (.db d))
        = .ok ["alpha", "zebra"] := by
  constructor
  · intro d2
    refine ⟨_, rfl, ?_⟩
    haveI : IsTotal DataSource dsLE := ⟨fun a b => lexLE_total _ _⟩
    haveI : IsTrans DataSource dsLE := ⟨fun _ _ _ h1 h2 => lexLE_trans _ _ _ h1 h2⟩
    exact List.sorted_insertionSort dsLE _
  · rcases h with h | h
    · simp only [list_tables, h, List.map_cons, List.map_nil,
        List.insertionSort, List.orderedInsert]
      split
      next hle => simp only [dsLE] at hle; exact absurd hle (by decide)
      next hle => simp [Except.map]
    · simp only [list_tables, h, List.map_cons, List.map_nil,
        List.insertionSort, List.orderedInsert]
      split
      next hle => simp [Except.map]
      next hle => simp only [dsLE] at hle; exact absurd (by decide) hle

/-- Witness for C7: the zebra-then-alpha fixture lists alpha before
zebra. -/
theorem C7_witness :
    Except.map (List.map DataSource.table_name)
      (list_tables (.db { tables := [("zebra", tdata1), ("alpha", tdata1)] }))
      = .ok ["alpha", "zebra"] :=
  (C7_list_tables_ascending { tables := [("zebra", tdata1), ("alpha", tdata1)] }
    tdata1 tdata1 (Or.inl rfl)).2

/-- The separator-inserting case of `pjoin`: for a relative second component
and a nonempty first component with no trailing separator, joining inserts
exactly one separator. -/
theorem pjoin_sep (a b : String) (hb : b.data.head? ≠ some '/')
    (ha1 : a.data ≠ []) (ha2 : a.data.getLast? ≠ some '/') :
    pjoin a b = a ++ "/" ++ b := by
  have h1 : (b.data.head? == some '/') = false := beq_eq_false_iff_ne.mpr hb
  have h2 : a.data.isEmpty = false := List.isEmpty_eq_false.mpr ha1
  have h3 : (a.data.getLast? == some '/') = false := beq_eq_false_iff_ne.mpr ha2
  simp [pjoin, h1, h2, h3]

/-- Appending a string with nonempty data keeps the data nonempty. -/
theorem append_data_ne_nil (a b : String) (hb : b.data ≠ []) :
    (a ++ b).data ≠ [] := by
  rw [String.data_append]
  intro h
  exact hb (List.append_eq_nil.mp h).2

/-- The last character of an append is that of a nonempty right part. -/
theorem append_data_getLast? (a b : String) (hb : b.data ≠ []) :
    (a ++ b).data.getLast? = b.data.getLast? := by
  rw [String.data_append, List.getLast?_append,
    Option.or_of_isSome (List.getLast?_isSome.mpr hb)]

/-- The first character of an append is that of a nonempty left part. -/
theorem append_data_head? (a b : String) (ha : a.data ≠ []) :
    (a ++ b).data.head? = a.data.head? := by
  rw [String.data_append]
  exact List.head?_append_of_ne_nil _ ha

/-- Directory creation is idempotent. -/
theorem makedirs_idem (fs : FS) (d : String) :
    (fs.makedirs d).makedirs d = fs.makedirs d := by
  unfold FS.makedirs
  by_cases h : d ∈ fs.dirs
  · simp [h]
  · simp [h]

/-- Directory creation makes the directory present. -/
theorem makedirs_mem (fs : FS) (d : String) : d ∈ (fs.makedirs d).dirs := by
  unfold FS.makedirs
  by_cases h : d ∈ fs.dirs
  · simp [h]
  · simp [h]

/-- Reading a freshly written file yields exactly the written payload. -/
theorem readFile_writeFile (fs : FS) (p : String) (c : List Nat) :
    (fs.writeFile p c).readFile p = some c := by
  simp [FS.writeFile, FS.readFile, List.find?]

/-- C1: under the workspace, filename and extension gates, the size gate of
the upload endpoint rejects a zero-byte payload with the empty-file reason,
rejects any payload strictly larger than 500 MiB with the too-large reason,
and accepts a payload of exactly 500 MiB. -/
theorem C1_size_gate (root : String) (store : List Workspace)
    (user_id workspace_id fname : String) (ctype : Option String)
    (fresh_id : String) (fs : FS) (u : String) (w : Workspace)
    (hu : parseUUID workspace_id = some u)
    (hw : findWorkspace store u user_id = some w)
    (hf : fname ≠ "")
    (he : get_extension fname ∈ ALLOWED_EXTENSIONS) :
    ((upload_file root store user_id workspace_id
        { filename := some fname, content_type := ctype, content := [] }
        fresh_id fs).1 = .httpError 400 "File is empty")
    ∧ (∀ content : List Nat, MAX_FILE_SIZE < content.length →
        (upload_file root store user_id workspace_id
          { filename := some fname, content_type := ctype, content := content }
          fresh_id fs).1 = .httpError 400 tooLargeDetail)
    ∧ (∀ content : List Nat, content.length = MAX_FILE_SIZE →
        (upload_file root store user_id workspace_id
          { filename := some fname, content_type := ctype, content := content }
          fresh_id fs).1.isOk = true) := by
  have hff : optStrFalsy (some fname) = false := by
    simpa [optStrFalsy] using hf
  refine ⟨?_, ?_, ?_⟩
  · simp [upload_file, hu, hw, hff, he, MAX_FILE_SIZE]
  · intro content hlen
    simp [upload_file, hu, hw, hff, he, hlen]
  · intro content hlen
    have h1 : ¬ content.length > MAX_FILE_SIZE := by
      rw [hlen]; exact Nat.lt_irrefl _
    have h2 : (content.length == 0) = false := by
      rw [hlen]; decide
    simp [upload_file, hu, hw, hff, he, h1, h2, Outcome.isOk]

/-- Witness for C1 at a concrete owned workspace and a csv filename: the
empty payload is rejected as empty, a payload one byte over the cap is
rejected as too large, and a payload of exactly the cap is accepted. -/
theorem C1_witness :
    ((upload_file "/data/workspaces" store1 owner1 wsId1
        { filename := some "sales.csv", content_type := some "text/csv",
          content := [] } "f1" fs0).1 = .httpError 400 "File is empty")
    ∧ ((upload_file "/data/workspaces" store1 owner1 wsId1
        { filename := some "sales.csv", content_type := some "text/csv",
          content := List.replicate (MAX_FILE_SIZE + 1) 0 } "f1" fs0).1
          = .httpError 400 tooLargeDetail)
    ∧ ((upload_file "/data/workspaces" store1 owner1 wsId1
        { filename := some "sales.csv", content_type := some "text/csv",
          content := List.replicate MAX_FILE_SIZE 0 } "f1" fs0).1.isOk
          = true) := by
  have h := C1_size_gate "/data/workspaces" store1 owner1 wsId1 "sales.csv"
    (some "text/csv") "f1" fs0 wsId1 ws1 (by decide) (by decide) (by decide)
    (by decide)
  exact ⟨h.1, h.2.1 _ (by simp), h.2.2 _ (by simp)⟩

/-- C2: an upload to an owned workspace whose filename has an extension
outside the allow-list is rejected with HTTP 400 and the unsupported-type
reason, and the filesystem is left completely unchanged: no upload
directory is created and no file is written. -/
theorem C2_extension_gate (root : String) (store : List Workspace)
    (user_id workspace_id fname : String) (ctype : Option String)
    (content : List Nat) (fresh_id : String) (fs : FS) (u : String)
    (w : Workspace)
    (hu : parseUUID workspace_id = some u)
    (hw : findWorkspace store u user_id = some w)
    (hf : fname ≠ "")
    (he : get_extension fname ∉ ALLOWED_EXTENSIONS) :
    upload_file root store user_id workspace_id
        { filename := some fname, content_type := ctype, content := content }
        fresh_id fs
      = (.httpError 400 (unsupportedDetail (get_extension fname)), fs) := by
  have hff : optStrFalsy (some fname) = false := by
    simpa [optStrFalsy] using hf
  simp [upload_file, hu, hw, hff, he]

/-- Witness for C2: uploading a file named data.exe is rejected with 400
and the filesystem state is returned untouched. -/
theorem C2_witness :
    upload_file "/data/workspaces" store1 owner1 wsId1
        { filename := some "data.exe", content_type := none,
          content := [1, 2, 3] } "f1" fs0
      = (.httpError 400 (unsupportedDetail (get_extension "data.exe")), fs0) :=
  C2_extension_gate "/data/workspaces" store1 owner1 wsId1 "data.exe" none
    [1, 2, 3] "f1" fs0 wsId1 ws1 (by decide) (by decide) (by decide)
    (by decide)

/-- C9: the workspace existence and ownership check precedes all file
validation: whenever the workspace id fails to parse as a UUID or no
workspace with that id is owned by the caller, the upload endpoint answers
404 Workspace not found and leaves the filesystem untouched, whatever the
file part contains. -/
theorem C9_workspace_check_precedes_validation (root : String)
    (store : List Workspace) (user_id workspace_id : String)
    (file : UploadFilePart) (fresh_id : String) (fs : FS)
    (h : parseUUID workspace_id = none
       ∨ ∃ u, parseUUID workspace_id = some u
           ∧ findWorkspace store u user_id = none) :
    upload_file root store user_id workspace_id file fresh_id fs
      = (.httpError 404 "Workspace not found", fs) := by
  rcases h with h | ⟨u, hu, hw⟩
  · simp [upload_file, h]
  · simp [upload_file, hu, hw]

/-- Witness for C9: a malformed workspace id with a file part that would
itself fail every validation (no filename, empty payload) still yields 404
Workspace not found. -/
theorem C9_witness :
    upload_file "/data/workspaces" store1 owner1 "not-a-uuid"
        { filename := none, content_type := none, content := [] } "f1" fs0
      = (.httpError 404 "Workspace not found", fs0) :=
  C9_workspace_check_precedes_validation "/data/workspaces" store1 owner1
    "not-a-uuid" { filename := none, content_type := none, content := [] }
    "f1" fs0 (Or.inl (by decide))

/-- C3: a fully valid upload writes the whole payload at
root/owner_id/workspace_id/uploads/token-ext, creating the upload directory
idempotently, and returns a descriptor carrying the token as file id, the
original filename unchanged, the payload byte length, the declared content
type (with the generic binary default when unspecified), and that final
path.  The side conditions say that the root and the identifier components
are nonempty and carry no leading or trailing separator, as the deployed
values (a rooted data directory and UUID strings) do. -/
theorem C3_upload_success_descriptor (root : String) (store : List Workspace)
    (user_id workspace_id fname : String) (ctype : Option String)
    (content : List Nat) (fresh_id : String) (fs : FS) (u : String)
    (w : Workspace)
    (hu : parseUUID workspace_id = some u)
    (hw : findWorkspace store u user_id = some w)
    (hf : fname ≠ "")
    (he : get_extension fname ∈ ALLOWED_EXTENSIONS)
    (hpos : content ≠ [])
    (hmax : content.length ≤ MAX_FILE_SIZE)
    (hroot1 : root.data ≠ []) (hroot2 : root.data.getLast? ≠ some '/')
    (huid1 : user_id.data ≠ []) (huid2 : user_id.data.head? ≠ some '/')
    (huid3 : user_id.data.getLast? ≠ some '/')
    (hwid1 : w.id.data ≠ []) (hwid2 : w.id.data.head? ≠ some '/')
    (hwid3 : w.id.data.getLast? ≠ some '/')
    (hfid1 : fresh_id.data ≠ []) (hfid2 : fresh_id.data.head? ≠ some '/') :
    upload_file root store user_id workspace_id
        { filename := some fname, content_type := ctype, content := content }
        fresh_id fs
      = (.ok { file_id := fresh_id
               filename := fname
               size := content.length
               content_type := optStrOr ctype "application/octet-stream"
               path := root ++ "/" ++ user_id ++ "/" ++ w.id ++ "/"
                 ++ "uploads" ++ "/" ++ (fresh_id ++ get_extension fname) },
         (fs.makedirs
             (root ++ "/" ++ user_id ++ "/" ++ w.id ++ "/" ++ "uploads")).writeFile
           (root ++ "/" ++ user_id ++ "/" ++ w.id ++ "/" ++ "uploads" ++ "/"
             ++ (fresh_id ++ get_extension fname)) content)
    ∧ (ctype = none →
        optStrOr ctype "application/octet-stream" = "application/octet-stream")
    ∧ (fs.makedirs
          (root ++ "/" ++ user_id ++ "/" ++ w.id ++ "/" ++ "uploads")).makedirs
        (root ++ "/" ++ user_id ++ "/" ++ w.id ++ "/" ++ "uploads")
        = fs.makedirs (root ++ "/" ++ user_id ++ "/" ++ w.id ++ "/" ++ "uploads")
    ∧ (root ++ "/" ++ user_id ++ "/" ++ w.id ++ "/" ++ "uploads")
        ∈ (fs.makedirs
            (root ++ "/" ++ user_id ++ "/" ++ w.id ++ "/" ++ "uploads")).dirs
    ∧ ((fs.makedirs
          (root ++ "/" ++ user_id ++ "/" ++ w.id ++ "/" ++ "uploads")).writeFile
          (root ++ "/" ++ user_id ++ "/" ++ w.id ++ "/" ++ "uploads" ++ "/"
            ++ (fresh_id ++ get_extension fname)) content).readFile
        (root ++ "/" ++ user_id ++ "/" ++ w.id ++ "/" ++ "uploads" ++ "/"
          ++ (fresh_id ++ get_extension fname)) = some content := by
  have hff : optStrFalsy (some fname) = false := by
    simpa [optStrFalsy] using hf
  have h1 : ¬ content.length > MAX_FILE_SIZE := Nat.not_lt.mpr hmax
  have h2 : (content.length == 0) = false :=
    beq_eq_false_iff_ne.mpr (fun hl => hpos (List.length_eq_zero.mp hl))
  have hj1 : pjoin root user_id = root ++ "/" ++ user_id :=
    pjoin_sep _ _ huid2 hroot1 hroot2
  have e1 : (root ++ "/" ++ user_id).data ≠ [] :=
    append_data_ne_nil _ _ huid1
  have hj2 : pjoin (root ++ "/" ++ user_id) w.id
      = root ++ "/" ++ user_id ++ "/" ++ w.id := by
    apply pjoin_sep _ _ hwid2 e1
    rw [append_data_getLast? _ _ huid1]
    exact huid3
  have e3 : (root ++ "/" ++ user_id ++ "/" ++ w.id).data ≠ [] :=
    append_data_ne_nil _ _ hwid1
  have hj3 : pjoin (root ++ "/" ++ user_id ++ "/" ++ w.id) "uploads"
      = root ++ "/" ++ user_id ++ "/" ++ w.id ++ "/" ++ "uploads" := by
    apply pjoin_sep _ _ (by decide) e3
    rw [append_data_getLast? _ _ hwid1]
    exact hwid3
  have e5 : (root ++ "/" ++ user_id ++ "/" ++ w.id ++ "/" ++ "uploads").data ≠ [] :=
    append_data_ne_nil _ _ (by decide)
  have hj4 : pjoin (root ++ "/" ++ user_id ++ "/" ++ w.id ++ "/" ++ "uploads")
      (fresh_id ++ get_extension fname)
      = root ++ "/" ++ user_id ++ "/" ++ w.id ++ "/" ++ "uploads" ++ "/"
        ++ (fresh_id ++ get_extension fname) := by
    apply pjoin_sep
    · rw [append_data_head? _ _ hfid1]
      exact hfid2
    · exact e5
    · rw [append_data_getLast? _ _ (by decide : ("uploads" : String).data ≠ [])]
      decide
  refine ⟨?_, fun hc => by subst hc; rfl, makedirs_idem _ _, makedirs_mem _ _,
    readFile_writeFile _ _ _⟩
  simp [upload_file, hu, hw, hff, he, h1, h2, hj1, hj2, hj3, hj4]

/-- Witness for C3: uploading two bytes of sales.csv to the fixture
workspace returns the descriptor and writes the payload under the upload
directory of that workspace. -/
theorem C3_witness :
    upload_file "/data/workspaces" store1 owner1 wsId1
        { filename := some "sales.csv", content_type := some "text/csv",
          content := [7, 9] } "f1" fs0
      = (.ok { file_id := "f1"
               filename := "sales.csv"
               size := ([7, 9] : List Nat).length
               content_type := optStrOr (some "text/csv") "application/octet-stream"
               path := "/data/workspaces" ++ "/" ++ owner1 ++ "/" ++ ws1.id
                 ++ "/" ++ "uploads" ++ "/" ++ ("f1" ++ get_extension "sales.csv") },
         (fs0.makedirs ("/data/workspaces" ++ "/" ++ owner1 ++ "/" ++ ws1.id
             ++ "/" ++ "uploads")).writeFile
           ("/data/workspaces" ++ "/" ++ owner1 ++ "/" ++ ws1.id ++ "/"
             ++ "uploads" ++ "/" ++ ("f1" ++ get_extension "sales.csv")) [7, 9]) :=
  (C3_upload_success_descriptor "/data/workspaces" store1 owner1 wsId1
    "sales.csv" (some "text/csv") [7, 9] "f1" fs0 wsId1 ws1
    (by decide) (by decide) (by decide) (by decide) (by decide) (by decide)
    (by decide) (by decide) (by decide) (by decide) (by decide) (by decide)
    (by decide) (by decide) (by decide) (by decide)).1

end RalphTemplate
